import Mathlib

/-!
Shallow embedding of the order-fulfillment coordination pipeline of the
scalable_zomato_app repository: the rider-assignment compare-and-swap,
the payment-settlement handler, the courier-matching consumer, the
real-time gateway internal emit endpoint, the payment-success producer
and the Razorpay verification controller.

Stores are modelled as functions from an order id to an optional order
document; Mongo conditional updates become conditional functional
updates; HTTP handlers become pure functions from a request to a
response plus the list of observable side effects (queue publishes,
socket deliveries).
-/

namespace ZomatoSpec

/-- An order document, with the fields touched by the assignment CAS and
the payment-settlement handler
(src/scalable_architecture_docs/03_Database_Evolution.md). -/
structure Order where
  riderId : Option String
  riderName : Option String
  riderPhone : Option String
  status : String
  paymentStatus : String
  expiresAt : Option Nat
deriving DecidableEq

/-- The order collection, keyed by order id. -/
def OrderStore := String → Option Order

/-- Response of the assign-rider endpoint: 403 Forbidden on a bad
internal key, 400 "Order already taken" when the conditional update
matched no document, success with the updated order otherwise. -/
inductive AssignResponse where
  | forbidden
  | alreadyTaken
  | assigned (o : Order)
deriving DecidableEq

/-- Embedding of assignRiderToOrder
(src/scalable_architecture_docs/03_Database_Evolution.md, lines
1374-1404): after the internal-key check, a single findOneAndUpdate
with filter `\x7b _id: orderId, riderId: null \x7d` setting riderId,
riderName, riderPhone and status "rider_assigned"; a null result is
answered with 400 "Order already taken". -/
def assignRiderToOrder (serviceKey : String) (headerKey : Option String)
    (store : OrderStore) (orderId riderId riderName riderPhone : String) :
    OrderStore × AssignResponse :=
  if headerKey ≠ some serviceKey then
    (store, AssignResponse.forbidden)
  else
    match store orderId with
    | some o =>
        if o.riderId = none then
          let o2 : Order :=
            { o with
              riderId := some riderId
              riderName := some riderName
              riderPhone := some riderPhone
              status := "rider_assigned" }
          (fun id => if id = orderId then some o2 else store id,
           AssignResponse.assigned o2)
        else
          (store, AssignResponse.alreadyTaken)
    | none => (store, AssignResponse.alreadyTaken)

/-- One accept attempt: the rider id, name and phone sent in the body. -/
structure Attempt where
  riderId : String
  riderName : String
  riderPhone : String
deriving DecidableEq

/-- A sequence of accept attempts against one order, each going through
the assignRiderToOrder conditional update, collecting the responses. -/
def acceptAttempts (serviceKey : String) (store : OrderStore)
    (orderId : String) : List Attempt → OrderStore × List AssignResponse
  | [] => (store, [])
  | a :: rest =>
      let step := assignRiderToOrder serviceKey (some serviceKey) store
        orderId a.riderId a.riderName a.riderPhone
      let tail := acceptAttempts serviceKey step.1 orderId rest
      (tail.1, step.2 :: tail.2)

/-- On an order whose riderId is already set, the conditional update
matches nothing: every attempt answers alreadyTaken and the store is
untouched. -/
theorem acceptAttempts_assigned_stable (serviceKey : String)
    (store : OrderStore) (orderId : String) (o : Order) (w : String)
    (h : store orderId = some o) (hw : o.riderId = some w) :
    ∀ l : List Attempt,
      acceptAttempts serviceKey store orderId l =
        (store, List.replicate l.length AssignResponse.alreadyTaken) := by
  intro l
  induction l with
  | nil => rfl
  | cons a rest ih =>
      simp only [acceptAttempts, assignRiderToOrder, h, hw]
      simp only [ite_not, if_pos rfl]
      simp [ih, List.replicate_succ]

/-- The order produced by a winning accept. -/
def assignedOrder (o : Order) (a : Attempt) : Order :=
  { o with
    riderId := some a.riderId
    riderName := some a.riderName
    riderPhone := some a.riderPhone
    status := "rider_assigned" }

/-- C1: courier accept is a compare-and-swap that can never
double-assign.  On an order whose riderId is null, the first attempt of
any attempt sequence succeeds, setting riderId to that courier and
status to rider_assigned; every later attempt answers alreadyTaken and
leaves the store exactly as it was after the first accept, so riderId
goes from null to non-null exactly once and is immutable thereafter. -/
theorem C1_accept_cas_no_double_assignment (serviceKey : String)
    (store : OrderStore) (orderId : String) (o : Order)
    (h : store orderId = some o) (h0 : o.riderId = none)
    (a : Attempt) (rest : List Attempt) :
    (assignRiderToOrder serviceKey (some serviceKey) store orderId
        a.riderId a.riderName a.riderPhone).2 =
      AssignResponse.assigned (assignedOrder o a) ∧
    (acceptAttempts serviceKey store orderId (a :: rest)).2 =
      AssignResponse.assigned (assignedOrder o a) ::
        List.replicate rest.length AssignResponse.alreadyTaken ∧
    (acceptAttempts serviceKey store orderId (a :: rest)).1 =
      (assignRiderToOrder serviceKey (some serviceKey) store orderId
        a.riderId a.riderName a.riderPhone).1 ∧
    (acceptAttempts serviceKey store orderId (a :: rest)).1 orderId =
      some (assignedOrder o a) := by
  have hstep : assignRiderToOrder serviceKey (some serviceKey) store orderId
      a.riderId a.riderName a.riderPhone =
      (fun id => if id = orderId then some (assignedOrder o a) else store id,
       AssignResponse.assigned (assignedOrder o a)) := by
    simp only [assignRiderToOrder, h, h0, ite_not, if_pos rfl]
    rfl
  have hstable := acceptAttempts_assigned_stable serviceKey
    (fun id => if id = orderId then some (assignedOrder o a) else store id)
    orderId (assignedOrder o a) a.riderId (by simp) (by rfl) rest
  refine ⟨by rw [hstep], ?_, ?_, ?_⟩
  · simp only [acceptAttempts, hstep, hstable]
  · simp only [acceptAttempts, hstep, hstable]
  · simp [acceptAttempts, hstep, hstable]

/-- A concrete unassigned order. -/
def orderUnassigned : Order :=
  { riderId := none
    riderName := none
    riderPhone := none
    status := "ready_for_pickup"
    paymentStatus := "paid"
    expiresAt := none }

/-- A concrete one-order store for witnesses. -/
def storeOne : OrderStore :=
  fun id => if id = "order1" then some orderUnassigned else none

/-- Witness for C1 at a concrete store and two competing attempts. -/
theorem C1_accept_cas_no_double_assignment_witness :
    (acceptAttempts "key" storeOne "order1"
        [⟨"riderA", "Alice", "111"⟩, ⟨"riderB", "Bob", "222"⟩]).2 =
      [AssignResponse.assigned
        (assignedOrder orderUnassigned ⟨"riderA", "Alice", "111"⟩),
       AssignResponse.alreadyTaken] := by
  have h := C1_accept_cas_no_double_assignment "key" storeOne "order1"
    orderUnassigned (by rfl) (by rfl)
    ⟨"riderA", "Alice", "111"⟩ [⟨"riderB", "Bob", "222"⟩]
  exact h.2.1

/-- A targeted notification pushed through the realtime gateway internal
emit endpoint: the room, the event tag and the payload fields sent by
the courier-matching consumer. -/
structure Emit where
  room : String
  event : String
  payloadOrderId : String
  payloadRestaurantId : String
deriving DecidableEq

/-- Embedding of the /api/payment/success handler
(src/scalable_architecture_docs/03_Database_Evolution.md, lines
295-303): an unconditional findByIdAndUpdate setting paymentStatus to
"paid" and unsetting expiresAt; the handler contains no gateway call,
so its list of dispatched notifications is empty. -/
def paymentSuccessHandler (store : OrderStore) (orderId : String) :
    OrderStore × List Emit :=
  match store orderId with
  | some o =>
      (fun id =>
        if id = orderId then
          some { o with paymentStatus := "paid", expiresAt := none }
        else store id,
       [])
  | none => (store, [])

/-- Delivering the same PAYMENT_SUCCESS update N times: the store after
N applications of the handler, with all dispatched notifications
accumulated. -/
def paymentSuccessN : Nat → OrderStore → String → OrderStore × List Emit
  | 0, store, _ => (store, [])
  | n + 1, store, orderId =>
      let step := paymentSuccessHandler store orderId
      let tail := paymentSuccessN n step.1 orderId
      (tail.1, step.2 ++ tail.2)

/-- Applying the handler twice to an existing order gives the same store
as applying it once: the second write writes the very same document. -/
theorem paymentSuccessHandler_idem (store : OrderStore) (orderId : String)
    (o : Order) (h : store orderId = some o) :
    paymentSuccessHandler (paymentSuccessHandler store orderId).1 orderId =
      ((paymentSuccessHandler store orderId).1, []) := by
  have h1 : (paymentSuccessHandler store orderId).1 orderId =
      some { o with paymentStatus := "paid", expiresAt := none } := by
    simp [paymentSuccessHandler, h]
  generalize hs : (paymentSuccessHandler store orderId).1 = s at h1 ⊢
  simp only [paymentSuccessHandler, h1]
  congr 1
  funext id
  by_cases hid : id = orderId
  · subst hid
    simp [h1]
  · simp [hid]

/-- C2 counterexample: the settlement update is not conditional on
paymentStatus being pending.  On an order whose paymentStatus is
"failed", the handler still sets paymentStatus to "paid" — under the
claimed conditional semantics the order would have stayed "failed" —
and the handler dispatches zero confirmation notifications, not exactly
one. -/
theorem C2_counterexample :
    (fun id => if id = "order1" then
        some { orderUnassigned with
               paymentStatus := "failed", expiresAt := some 100 }
      else none : OrderStore) "order1" =
      some { orderUnassigned with
             paymentStatus := "failed", expiresAt := some 100 } ∧
    (paymentSuccessHandler
        (fun id => if id = "order1" then
            some { orderUnassigned with
                   paymentStatus := "failed", expiresAt := some 100 }
          else none) "order1").1 "order1" =
      some { orderUnassigned with paymentStatus := "paid", expiresAt := none } ∧
    (paymentSuccessHandler
        (fun id => if id = "order1" then
            some { orderUnassigned with
                   paymentStatus := "failed", expiresAt := some 100 }
          else none) "order1").2 = [] := by
  refine ⟨rfl, ?_, rfl⟩
  simp [paymentSuccessHandler, orderUnassigned]

/-- C2 (amended): settlement is idempotent because the update is an
unconditional absorbing assignment.  Applying the PAYMENT_SUCCESS
update N times (N at least 1) to an existing order leaves the same
store as applying it once, the final order has paymentStatus "paid"
with expiresAt cleared, and zero gateway notifications are dispatched
by this handler. -/
theorem paymentSuccessN_succ_eq (orderId : String) :
    ∀ (n : Nat) (store : OrderStore) (o : Order), store orderId = some o →
      paymentSuccessN (n + 1) store orderId =
        ((paymentSuccessHandler store orderId).1, []) := by
  intro n
  induction n with
  | zero =>
      intro store o h
      simp [paymentSuccessN, paymentSuccessHandler, h]
  | succ n ih =>
      intro store o h
      have hstep : (paymentSuccessHandler store orderId).1 orderId =
          some { o with paymentStatus := "paid", expiresAt := none } := by
        simp [paymentSuccessHandler, h]
      have hrec := ih (paymentSuccessHandler store orderId).1 _ hstep
      have hidem := paymentSuccessHandler_idem store orderId o h
      show ((paymentSuccessN (n + 1)
          (paymentSuccessHandler store orderId).1 orderId).1,
        (paymentSuccessHandler store orderId).2 ++
          (paymentSuccessN (n + 1)
            (paymentSuccessHandler store orderId).1 orderId).2) =
        ((paymentSuccessHandler store orderId).1, [])
      rw [hrec, hidem]
      simp [paymentSuccessHandler, h]

/-- C2 (amended): settlement is idempotent because the update is an
unconditional absorbing assignment.  Applying the PAYMENT_SUCCESS
update N times (N at least 1) to an existing order leaves the same
store as applying it once, the final order has paymentStatus "paid"
with expiresAt cleared, and zero gateway notifications are dispatched
by this handler. -/
theorem C2_settlement_idempotent (store : OrderStore) (orderId : String)
    (o : Order) (h : store orderId = some o) (N : Nat) (hN : 1 ≤ N) :
    (paymentSuccessN N store orderId).1 =
      (paymentSuccessHandler store orderId).1 ∧
    (paymentSuccessN N store orderId).1 orderId =
      some { o with paymentStatus := "paid", expiresAt := none } ∧
    (paymentSuccessN N store orderId).2 = [] := by
  obtain ⟨n, rfl⟩ : ∃ n, N = n + 1 := ⟨N - 1, by omega⟩
  have hmain := paymentSuccessN_succ_eq orderId n store o h
  rw [hmain]
  refine ⟨rfl, ?_, rfl⟩
  simp [paymentSuccessHandler, h]

/-- Witness for C2 at a concrete store, replaying the update 3 times. -/
theorem C2_settlement_idempotent_witness :
    (paymentSuccessN 3 storeOne "order1").1 "order1" =
      some { orderUnassigned with paymentStatus := "paid", expiresAt := none } ∧
    (paymentSuccessN 3 storeOne "order1").2 = [] := by
  have h := C2_settlement_idempotent storeOne "order1" orderUnassigned
    (by rfl) 3 (by decide)
  exact ⟨h.2.1, h.2.2⟩

/-- A geographic point; the geodesic distance computed by the storage
layer for the near query is abstracted as an explicit distance-function
parameter below. -/
structure Coord where
  lng : Int
  lat : Int
deriving DecidableEq

/-- A rider document with the fields used by the courier query
(src/services/rider/src/model/Rider.ts); the availability field is
spelled isAvailble in the schema and in the query, consistently. -/
structure Rider where
  userId : String
  isVerified : Bool
  isAvailble : Bool
  location : Coord
deriving DecidableEq

/-- The candidate query of the consumer
(src/services/rider/src/config/orderReady.consumer.ts, lines 30-39):
Rider.find with isAvailble true, isVerified true and location within
maxDistance 500 of the pickup location. -/
def riderQuery (dist : Coord → Coord → Nat) (riders : List Rider)
    (loc : Coord) : List Rider :=
  riders.filter fun r =>
    r.isAvailble && r.isVerified && decide (dist r.location loc ≤ 500)

/-- The payload of an order-ready envelope as destructured by the
consumer: orderId, restaurantId and the pickup location. -/
structure OrderReadyData where
  orderId : String
  restaurantId : String
  location : Coord
deriving DecidableEq

/-- A parsed broker message: the type tag and the data payload. -/
structure ConsumedMsg where
  type : String
  data : OrderReadyData
deriving DecidableEq

/-- What the consumer decides about the broker message: ack, a
nack-with-requeue, a dead-letter, or no decision at all. -/
inductive MsgDecision where
  | ack
  | nackRequeue
  | deadLetter
  | noDecision
deriving DecidableEq

/-- Observable outcome of consuming one message: the acknowledgment
decision, the emit calls attempted against the gateway, and the subset
of them whose dispatch succeeded. -/
structure ConsumeResult where
  decision : MsgDecision
  attempted : List Emit
  delivered : List Emit
deriving DecidableEq

/-- The emit call the consumer posts for one candidate rider: event
order:available to room user:<userId> with payload orderId and
restaurantId. -/
def riderEmit (d : OrderReadyData) (r : Rider) : Emit :=
  { room := "user:" ++ r.userId
    event := "order:available"
    payloadOrderId := d.orderId
    payloadRestaurantId := d.restaurantId }

/-- Embedding of the message handler of startOrderReadyConsumer
(src/services/rider/src/config/orderReady.consumer.ts): a message whose
type is not ORDER_READY_FOR_RIDER is acked and skipped; the candidate
query runs; an empty candidate list is logged and the message acked; a
non-empty list is iterated, posting one emit per rider with each post
wrapped in its own try/catch (a failed post is only logged), and the
message is acked after the loop.  The dispatchOk oracle tells which
posts to the gateway succeed. -/
def consumeOrderReady (dist : Coord → Coord → Nat) (riders : List Rider)
    (dispatchOk : String → Bool) (msg : ConsumedMsg) : ConsumeResult :=
  if msg.type ≠ "ORDER_READY_FOR_RIDER" then
    { decision := MsgDecision.ack, attempted := [], delivered := [] }
  else
    match riderQuery dist riders msg.data.location with
    | [] => { decision := MsgDecision.ack, attempted := [], delivered := [] }
    | c :: cs =>
        { decision := MsgDecision.ack
          attempted := (c :: cs).map (riderEmit msg.data)
          delivered :=
            ((c :: cs).filter fun r => dispatchOk r.userId).map
              (riderEmit msg.data) }

/-- On a matching tag, the attempted emits are exactly one emit per
rider returned by the candidate query. -/
theorem consumeOrderReady_attempted (dist : Coord → Coord → Nat)
    (riders : List Rider) (dispatchOk : String → Bool) (msg : ConsumedMsg)
    (h : msg.type = "ORDER_READY_FOR_RIDER") :
    (consumeOrderReady dist riders dispatchOk msg).attempted =
      (riderQuery dist riders msg.data.location).map (riderEmit msg.data) := by
  simp only [consumeOrderReady, h, ite_not, if_pos rfl]
  cases hq : riderQuery dist riders msg.data.location <;> simp

/-- On a matching tag, the decision is always ack, whatever the
dispatch outcomes were. -/
theorem consumeOrderReady_decision (dist : Coord → Coord → Nat)
    (riders : List Rider) (dispatchOk : String → Bool) (msg : ConsumedMsg)
    (h : msg.type = "ORDER_READY_FOR_RIDER") :
    (consumeOrderReady dist riders dispatchOk msg).decision =
      MsgDecision.ack := by
  simp only [consumeOrderReady, h, ite_not, if_pos rfl]
  cases hq : riderQuery dist riders msg.data.location <;> simp

/-- A concrete ORDER_READY_FOR_RIDER message for counterexamples. -/
def msgReady : ConsumedMsg :=
  { type := "ORDER_READY_FOR_RIDER"
    data := { orderId := "order1", restaurantId := "rest1",
              location := { lng := 0, lat := 0 } } }

/-- A concrete distance function placing every rider at the pickup. -/
def distZero : Coord → Coord → Nat := fun _ _ => 0

/-- A concrete available, verified rider. -/
def riderA : Rider :=
  { userId := "uA", isVerified := true, isAvailble := true,
    location := { lng := 0, lat := 0 } }

/-- C3 counterexample: with an empty candidate set the consumer
acknowledges and drops the ORDER_READY envelope on the first empty
query — there is no nack-with-requeue and no dead-letter. -/
theorem C3_counterexample :
    (consumeOrderReady distZero [] (fun _ => true) msgReady).decision =
      MsgDecision.ack ∧
    (consumeOrderReady distZero [] (fun _ => true) msgReady).decision ≠
      MsgDecision.nackRequeue ∧
    (consumeOrderReady distZero [] (fun _ => true) msgReady).decision ≠
      MsgDecision.deadLetter ∧
    (consumeOrderReady distZero [] (fun _ => true) msgReady).attempted =
      [] := by
  refine ⟨rfl, ?_, ?_, rfl⟩ <;> decide

/-- C3 (amended): when the candidate query returns no rider, the
consumer logs, acknowledges and drops the envelope — the result is an
ack with no emit attempted; no requeue, backoff or dead-letter path
exists. -/
theorem C3_empty_candidates_acked (dist : Coord → Coord → Nat)
    (riders : List Rider) (dispatchOk : String → Bool) (msg : ConsumedMsg)
    (h : msg.type = "ORDER_READY_FOR_RIDER")
    (hq : riderQuery dist riders msg.data.location = []) :
    consumeOrderReady dist riders dispatchOk msg =
      { decision := MsgDecision.ack, attempted := [], delivered := [] } := by
  simp [consumeOrderReady, h, hq]

/-- Witness for C3 at a concrete empty rider collection. -/
theorem C3_empty_candidates_acked_witness :
    consumeOrderReady distZero [] (fun _ => true) msgReady =
      { decision := MsgDecision.ack, attempted := [], delivered := [] } :=
  C3_empty_candidates_acked distZero [] (fun _ => true) msgReady rfl rfl

/-- C4 counterexample: with one candidate whose dispatch to the gateway
fails, the consumer still acknowledges the message — delivered is empty
while the message is acked, not nack-requeued. -/
theorem C4_counterexample :
    (consumeOrderReady distZero [riderA] (fun _ => false) msgReady).decision =
      MsgDecision.ack ∧
    (consumeOrderReady distZero [riderA] (fun _ => false) msgReady).decision ≠
      MsgDecision.nackRequeue ∧
    (consumeOrderReady distZero [riderA] (fun _ => false) msgReady).attempted =
      [riderEmit msgReady.data riderA] ∧
    (consumeOrderReady distZero [riderA] (fun _ => false) msgReady).delivered =
      [] := by
  refine ⟨?_, ?_, ?_, ?_⟩ <;> decide

/-- C4 (amended): the consumer attempts one emit per candidate, each
post wrapped in its own try/catch, and acknowledges the message after
the loop regardless of how many dispatches failed; no dispatch outcome
ever produces a nack. -/
theorem C4_ack_regardless_of_dispatch (dist : Coord → Coord → Nat)
    (riders : List Rider) (dispatchOk : String → Bool) (msg : ConsumedMsg)
    (h : msg.type = "ORDER_READY_FOR_RIDER") :
    (consumeOrderReady dist riders dispatchOk msg).decision =
      MsgDecision.ack ∧
    (consumeOrderReady dist riders dispatchOk msg).attempted =
      (riderQuery dist riders msg.data.location).map (riderEmit msg.data) :=
  ⟨consumeOrderReady_decision dist riders dispatchOk msg h,
   consumeOrderReady_attempted dist riders dispatchOk msg h⟩

/-- Witness for C4: all dispatches fail, the message is still acked. -/
theorem C4_ack_regardless_of_dispatch_witness :
    (consumeOrderReady distZero [riderA] (fun _ => false) msgReady).decision =
      MsgDecision.ack :=
  (C4_ack_regardless_of_dispatch distZero [riderA] (fun _ => false)
    msgReady rfl).1

/-- A concrete message carrying the tag the claim expected. -/
def msgPickup : ConsumedMsg :=
  { type := "ORDER_READY_FOR_PICKUP"
    data := { orderId := "order1", restaurantId := "rest1",
              location := { lng := 0, lat := 0 } } }

/-- C5 counterexample: an envelope tagged ORDER_READY_FOR_PICKUP is
skipped (acked with no candidate fan-out) even with an eligible rider
in radius, while the same payload tagged ORDER_READY_FOR_RIDER is
processed with a fan-out — the consumed tag is ORDER_READY_FOR_RIDER,
not ORDER_READY_FOR_PICKUP. -/
theorem C5_counterexample :
    consumeOrderReady distZero [riderA] (fun _ => true) msgPickup =
      { decision := MsgDecision.ack, attempted := [], delivered := [] } ∧
    (consumeOrderReady distZero [riderA] (fun _ => true) msgReady).attempted =
      [riderEmit msgReady.data riderA] := by
  refine ⟨?_, ?_⟩ <;> decide

/-- C5 (amended): the consumer processes a message (runs the courier
query and fan-out) exactly when its type field equals
ORDER_READY_FOR_RIDER; a message with any other tag is acked and
skipped with no emit. -/
theorem C5_tag_gates_processing (dist : Coord → Coord → Nat)
    (riders : List Rider) (dispatchOk : String → Bool) (msg : ConsumedMsg) :
    (msg.type ≠ "ORDER_READY_FOR_RIDER" →
      consumeOrderReady dist riders dispatchOk msg =
        { decision := MsgDecision.ack, attempted := [], delivered := [] }) ∧
    (msg.type = "ORDER_READY_FOR_RIDER" →
      (consumeOrderReady dist riders dispatchOk msg).attempted =
        (riderQuery dist riders msg.data.location).map (riderEmit msg.data)) := by
  constructor
  · intro h
    simp [consumeOrderReady, h]
  · intro h
    exact consumeOrderReady_attempted dist riders dispatchOk msg h

/-- Witness for C5: the skip branch at the PICKUP tag and the process
branch at the RIDER tag, both at concrete inputs. -/
theorem C5_tag_gates_processing_witness :
    consumeOrderReady distZero [riderA] (fun _ => true) msgPickup =
      { decision := MsgDecision.ack, attempted := [], delivered := [] } ∧
    (consumeOrderReady distZero [riderA] (fun _ => true) msgReady).attempted =
      [riderEmit msgReady.data riderA] := by
  constructor
  · exact (C5_tag_gates_processing distZero [riderA] (fun _ => true)
      msgPickup).1 (by decide)
  · rw [(C5_tag_gates_processing distZero [riderA] (fun _ => true)
      msgReady).2 rfl]
    decide

/-- Left cancellation for string append, via the underlying char
lists. -/
theorem string_append_left_cancel {s t u : String}
    (h : s ++ t = s ++ u) : t = u := by
  have hd : s.data ++ t.data = s.data ++ u.data := by
    have h2 := congrArg String.data h
    cases s with
    | mk ds =>
        cases t with
        | mk dt =>
            cases u with
            | mk du => simpa [String.data] using h2
  have h3 := List.append_cancel_left hd
  cases t with
  | mk dt =>
      cases u with
      | mk du => exact congrArg String.mk h3

/-- C6: offer fan-out targets exactly the eligible couriers.  For a
processed order-ready message at pickup location L, an order:available
emit to room user:<u> is attempted if and only if some rider with
userId u is available, verified and within distance 500 of L; and when
every dispatch to the gateway succeeds, the delivered pushes are
exactly the attempted ones. -/
theorem C6_fanout_exactly_eligible (dist : Coord → Coord → Nat)
    (riders : List Rider) (dispatchOk : String → Bool) (msg : ConsumedMsg)
    (u : String) (h : msg.type = "ORDER_READY_FOR_RIDER") :
    ((∃ e ∈ (consumeOrderReady dist riders dispatchOk msg).attempted,
        e.room = "user:" ++ u ∧ e.event = "order:available") ↔
      (∃ r ∈ riders, r.userId = u ∧ r.isAvailble = true ∧
        r.isVerified = true ∧ dist r.location msg.data.location ≤ 500)) ∧
    (consumeOrderReady dist riders (fun _ => true) msg).delivered =
      (consumeOrderReady dist riders (fun _ => true) msg).attempted := by
  constructor
  · rw [consumeOrderReady_attempted dist riders dispatchOk msg h]
    constructor
    · rintro ⟨e, he, hroom, _⟩
      rw [List.mem_map] at he
      obtain ⟨r, hr, rfl⟩ := he
      rw [riderQuery, List.mem_filter] at hr
      refine ⟨r, hr.1, ?_, ?_, ?_, ?_⟩
      · exact string_append_left_cancel hroom
      · have := hr.2
        simp only [Bool.and_eq_true, decide_eq_true_eq] at this
        exact this.1.1
      · have := hr.2
        simp only [Bool.and_eq_true, decide_eq_true_eq] at this
        exact this.1.2
      · have := hr.2
        simp only [Bool.and_eq_true, decide_eq_true_eq] at this
        exact this.2
    · rintro ⟨r, hr, hu, ha, hv, hd⟩
      refine ⟨riderEmit msg.data r, ?_, ?_, rfl⟩
      · rw [List.mem_map]
        refine ⟨r, ?_, rfl⟩
        rw [riderQuery, List.mem_filter]
        exact ⟨hr, by simp [ha, hv, hd]⟩
      · rw [riderEmit]
        exact congrArg (fun x => "user:" ++ x) hu
  · simp only [consumeOrderReady, h, ite_not, if_pos rfl]
    cases hq : riderQuery dist riders msg.data.location <;> simp

/-- Witness for C6: one in-radius rider, one unavailable rider. -/
theorem C6_fanout_exactly_eligible_witness :
    ((∃ e ∈ (consumeOrderReady distZero
          [riderA, { riderA with userId := "uB", isAvailble := false }]
          (fun _ => true) msgReady).attempted,
        e.room = "user:" ++ "uA" ∧ e.event = "order:available") ↔
      (∃ r ∈ [riderA, { riderA with userId := "uB", isAvailble := false }],
        r.userId = "uA" ∧ r.isAvailble = true ∧ r.isVerified = true ∧
        distZero r.location msgReady.data.location ≤ 500)) ∧
    ¬ (∃ e ∈ (consumeOrderReady distZero
          [riderA, { riderA with userId := "uB", isAvailble := false }]
          (fun _ => true) msgReady).attempted,
        e.room = "user:" ++ "uB" ∧ e.event = "order:available") := by
  constructor
  · exact (C6_fanout_exactly_eligible distZero
      [riderA, { riderA with userId := "uB", isAvailble := false }]
      (fun _ => true) msgReady "uA" rfl).1
  · rw [(C6_fanout_exactly_eligible distZero
      [riderA, { riderA with userId := "uB", isAvailble := false }]
      (fun _ => true) msgReady "uB" rfl).1]
    decide

/-- A JSON value, as far as the handlers here construct one. -/
inductive JVal where
  | s (v : String)
  | b (v : Bool)
  | obj (fields : List (String × JVal))

/-- The body of an emit request as destructured by the handler: the
internal key header and the event, room and payload fields, each
possibly absent. -/
structure EmitReq where
  internalKey : Option String
  event : Option String
  room : Option String
  payload : Option JVal

/-- An HTTP response: status code and JSON object body. -/
structure HttpResponse where
  status : Nat
  body : List (String × JVal)

/-- A message delivered to one connected session of a room: session id,
event tag and payload. -/
structure Delivery where
  session : String
  event : String
  payload : JVal

/-- JavaScript falsiness of an optional string field: absent or the
empty string. -/
def jsFalsy : Option String → Bool
  | none => true
  | some v => v == ""

/-- Embedding of the internal emit route
(src/services/realtime/src/routes/internal.ts): 403 with message
Forbidden when the x-internal-key header differs from the service key;
400 when event or room is falsy; otherwise io.to(room).emit(event,
payload ?? \x7b\x7d) — one delivery per session currently in the room —
and a 200 response whose body is written as sucess: true.  The room
registry, read through the rooms map, is not modified. -/
def emitHandler (serviceKey : String) (rooms : String → List String)
    (req : EmitReq) : HttpResponse × List Delivery :=
  if req.internalKey ≠ some serviceKey then
    ({ status := 403, body := [("message", JVal.s "Forbidden")] }, [])
  else if jsFalsy req.event || jsFalsy req.room then
    ({ status := 400,
       body := [("message", JVal.s "event and room are required")] }, [])
  else
    ({ status := 200, body := [("sucess", JVal.b true)] },
     (rooms (req.room.getD "")).map fun sess =>
       { session := sess
         event := req.event.getD ""
         payload := req.payload.getD (JVal.obj []) })

/-- C7 (code bug): at a well-formed authorized request the emit route
answers 200 but spells the body key sucess — the repository docs for
this very route write success: true — while the 403 and 400 branches
answer as the claim states. -/
theorem C7_emit_responses :
    (emitHandler "key" (fun _ => ["sessA"])
        { internalKey := some "key", event := some "order:update",
          room := some "user:1", payload := none }).1.status = 200 ∧
    (emitHandler "key" (fun _ => ["sessA"])
        { internalKey := some "key", event := some "order:update",
          room := some "user:1", payload := none }).1.body.lookup "sucess" =
      some (JVal.b true) ∧
    (emitHandler "key" (fun _ => ["sessA"])
        { internalKey := some "key", event := some "order:update",
          room := some "user:1", payload := none }).1.body.lookup "success" =
      none ∧
    (emitHandler "key" (fun _ => ["sessA"])
        { internalKey := some "wrong", event := some "order:update",
          room := some "user:1", payload := none }).1.status = 403 ∧
    (emitHandler "key" (fun _ => ["sessA"])
        { internalKey := some "key", event := none,
          room := some "user:1", payload := none }).1.status = 400 ∧
    (emitHandler "key" (fun _ => ["sessA"])
        { internalKey := some "key", event := some "order:update",
          room := none, payload := none }).1.status = 400 := by
  refine ⟨rfl, rfl, rfl, ?_, rfl, rfl⟩
  rfl

/-- C8: publishing to a room with zero connected sessions is a
successful no-op — an authorized, well-formed emit to an empty room
answers status 200 and delivers to no session; the rooms registry is
read, never written, so no other state changes. -/
theorem C8_empty_room_noop (serviceKey : String)
    (rooms : String → List String) (req : EmitReq) (ev rm : String)
    (hkey : req.internalKey = some serviceKey)
    (hev : req.event = some ev) (hev2 : ev ≠ "")
    (hrm : req.room = some rm) (hrm2 : rm ≠ "")
    (hempty : rooms rm = []) :
    (emitHandler serviceKey rooms req).1.status = 200 ∧
    (emitHandler serviceKey rooms req).2 = [] := by
  constructor <;>
    simp [emitHandler, hkey, hev, hrm, jsFalsy, hev2, hrm2, hempty]

/-- Witness for C8: a concrete authorized emit to an empty room. -/
theorem C8_empty_room_noop_witness :
    (emitHandler "key" (fun _ => [])
        { internalKey := some "key", event := some "order:update",
          room := some "user:1", payload := none }).1.status = 200 ∧
    (emitHandler "key" (fun _ => [])
        { internalKey := some "key", event := some "order:update",
          room := some "user:1", payload := none }).2 = [] :=
  C8_empty_room_noop "key" (fun _ => [])
    { internalKey := some "key", event := some "order:update",
      room := some "user:1", payload := none }
    "order:update" "user:1" rfl rfl (by decide) rfl (by decide) rfl

/-- Embedding of publishPaymentSuccess
(src/services/utils/src/config/payment.producer.ts): the JSON object
sent to the payment queue — type PAYMENT_SUCCESS and a data object with
orderId, paymentId and provider.  No other field is written. -/
def publishPaymentSuccessEnvelope (orderId paymentId provider : String) :
    List (String × JVal) :=
  [("type", JVal.s "PAYMENT_SUCCESS"),
   ("data", JVal.obj
     [("orderId", JVal.s orderId),
      ("paymentId", JVal.s paymentId),
      ("provider", JVal.s provider)])]

/-- C9 counterexample: the PAYMENT_SUCCESS envelope put on the broker
has exactly the keys type and data — there is no timestamp field — and
its data object carries orderId, paymentId and provider, not
paymentReference. -/
theorem C9_counterexample :
    (publishPaymentSuccessEnvelope "order1" "pay1" "razorpay").lookup
      "timestamp" = none ∧
    (publishPaymentSuccessEnvelope "order1" "pay1" "razorpay").map
      Prod.fst = ["type", "data"] ∧
    (publishPaymentSuccessEnvelope "order1" "pay1" "razorpay").lookup
      "data" = some (JVal.obj
        [("orderId", JVal.s "order1"),
         ("paymentId", JVal.s "pay1"),
         ("provider", JVal.s "razorpay")]) := by
  refine ⟨rfl, rfl, rfl⟩

/-- C9 (amended): every envelope published by publishPaymentSuccess has
the wire shape type PAYMENT_SUCCESS plus a data object with keys
orderId, paymentId and provider, and carries no timestamp field. -/
theorem C9_envelope_shape (orderId paymentId provider : String) :
    (publishPaymentSuccessEnvelope orderId paymentId provider).map
      Prod.fst = ["type", "data"] ∧
    (publishPaymentSuccessEnvelope orderId paymentId provider).lookup
      "type" = some (JVal.s "PAYMENT_SUCCESS") ∧
    (publishPaymentSuccessEnvelope orderId paymentId provider).lookup
      "data" = some (JVal.obj
        [("orderId", JVal.s orderId),
         ("paymentId", JVal.s paymentId),
         ("provider", JVal.s provider)]) ∧
    (publishPaymentSuccessEnvelope orderId paymentId provider).lookup
      "timestamp" = none := by
  refine ⟨rfl, rfl, rfl, rfl⟩

/-- A Razorpay verification request body
(src/unnamed/part_006, verifyRazorpayPayment). -/
structure RazorpayVerifyReq where
  razorpay_order_id : String
  razorpay_payment_id : String
  razorpay_signature : String
  orderId : String

/-- Embedding of verifyRazorpaySignature
(src/services/utils/src/config/verifyRazorpay.ts): the supplied
signature must equal the hex HMAC-SHA256, abstracted as the hmacHex
parameter, of "<orderId>|<paymentId>" keyed by the Razorpay secret. -/
def verifyRazorpaySignature (hmacHex : String → String → String)
    (secret orderId paymentId signature : String) : Bool :=
  hmacHex secret (orderId ++ "|" ++ paymentId) == signature

/-- Embedding of verifyRazorpayPayment (src/unnamed/part_006, lines
31-60): on signature mismatch, 400 "Payment verification failed" and no
publish; on match, publishPaymentSuccess with the internal orderId, the
Razorpay payment id and provider razorpay, then 200. -/
def verifyRazorpayPayment (hmacHex : String → String → String)
    (secret : String) (req : RazorpayVerifyReq) :
    HttpResponse × List (List (String × JVal)) :=
  if verifyRazorpaySignature hmacHex secret req.razorpay_order_id
      req.razorpay_payment_id req.razorpay_signature then
    ({ status := 200,
       body := [("message", JVal.s "Payment verified successfully")] },
     [publishPaymentSuccessEnvelope req.orderId req.razorpay_payment_id
       "razorpay"])
  else
    ({ status := 400,
       body := [("message", JVal.s "Payment verification failed")] },
     [])

/-- C10: the verification endpoint publishes a PAYMENT_SUCCESS event if
and only if the supplied signature equals the hex HMAC of
"<razorpay_order_id>|<razorpay_payment_id>" keyed by the secret; on a
mismatch it answers 400 "Payment verification failed" and publishes
nothing, and on a match it publishes exactly the settlement envelope. -/
theorem C10_signature_gates_publish (hmacHex : String → String → String)
    (secret : String) (req : RazorpayVerifyReq) :
    ((verifyRazorpayPayment hmacHex secret req).2 ≠ [] ↔
      hmacHex secret (req.razorpay_order_id ++ "|" ++
        req.razorpay_payment_id) = req.razorpay_signature) ∧
    (hmacHex secret (req.razorpay_order_id ++ "|" ++
        req.razorpay_payment_id) ≠ req.razorpay_signature →
      (verifyRazorpayPayment hmacHex secret req).1.status = 400 ∧
      (verifyRazorpayPayment hmacHex secret req).1.body =
        [("message", JVal.s "Payment verification failed")] ∧
      (verifyRazorpayPayment hmacHex secret req).2 = []) ∧
    (hmacHex secret (req.razorpay_order_id ++ "|" ++
        req.razorpay_payment_id) = req.razorpay_signature →
      (verifyRazorpayPayment hmacHex secret req).1.status = 200 ∧
      (verifyRazorpayPayment hmacHex secret req).2 =
        [publishPaymentSuccessEnvelope req.orderId
          req.razorpay_payment_id "razorpay"]) := by
  refine ⟨?_, ?_, ?_⟩
  · constructor
    · intro hne
      by_contra hsig
      apply hne
      simp [verifyRazorpayPayment, verifyRazorpaySignature, hsig]
    · intro hsig
      simp [verifyRazorpayPayment, verifyRazorpaySignature, hsig]
  · intro hsig
    refine ⟨?_, ?_, ?_⟩ <;>
      simp [verifyRazorpayPayment, verifyRazorpaySignature, hsig]
  · intro hsig
    constructor <;>
      simp [verifyRazorpayPayment, verifyRazorpaySignature, hsig]

/-- Witness for C10 with a concrete hmac function: a matching signature
publishes the envelope, a mismatching one is refused with 400. -/
theorem C10_signature_gates_publish_witness :
    (verifyRazorpayPayment (fun k b => k ++ ":" ++ b) "sec"
        { razorpay_order_id := "ro", razorpay_payment_id := "rp",
          razorpay_signature := "sec:ro|rp", orderId := "order1" }).2 =
      [publishPaymentSuccessEnvelope "order1" "rp" "razorpay"] ∧
    (verifyRazorpayPayment (fun k b => k ++ ":" ++ b) "sec"
        { razorpay_order_id := "ro", razorpay_payment_id := "rp",
          razorpay_signature := "bad", orderId := "order1" }).1.status =
      400 := by
  constructor
  · exact ((C10_signature_gates_publish (fun k b => k ++ ":" ++ b) "sec"
      { razorpay_order_id := "ro", razorpay_payment_id := "rp",
        razorpay_signature := "sec:ro|rp",
        orderId := "order1" }).2.2 (by decide)).2
  · exact ((C10_signature_gates_publish (fun k b => k ++ ":" ++ b) "sec"
      { razorpay_order_id := "ro", razorpay_payment_id := "rp",
        razorpay_signature := "bad",
        orderId := "order1" }).2.1 (by decide)).1

end ZomatoSpec
